import Mathlib

/-!
Verification development for the Yugantar text-to-visualization web app.

The definitions below are shallow embeddings of the TypeScript source:
  * a model of JavaScript `JSON.parse` (JSON values and a fuel-based parser),
  * the incremental instruction-stream decoder of `streamInstructions`
    (client page, `src/unnamed/part_000`),
  * `stripMarkdownFences` and `isLikelyCompleteHtml`
    (`src/app/api/generate-visualization/route.ts`),
  * the step-relay and recorder logic of `HTMLRenderer.tsx`,
  * the `POST /api/generate-visualization` handler and the prompt-history
    `GET` handler.

Machine strings are `String` (lists of characters); braces in string
literals are written with `\x7b` / `\x7d` escapes and backticks with `\x60`.
-/

/-- JSON values as produced by `JSON.parse`. Numbers keep their source token
(the claims under study never compare numeric values across distinct
spellings); object fields keep source order and may repeat, with lookups
taking the last binding exactly as `JSON.parse` does. -/
inductive Json where
  | null : Json
  | bool (b : Bool) : Json
  | num (tok : String) : Json
  | str (s : String) : Json
  | arr (items : List Json) : Json
  | obj (fields : List (String × Json)) : Json

/-- JSON insignificant whitespace: space, tab, line feed, carriage return. -/
def jsonWs (c : Char) : Bool :=
  c = ' ' || c = '\x09' || c = '\x0a' || c = '\x0d'

/-- Drop leading JSON whitespace. -/
def skipWs (l : List Char) : List Char := l.dropWhile jsonWs

/-- Hexadecimal digit test for `\uXXXX` escapes. -/
def isHexDigitCh (c : Char) : Bool :=
  c.isDigit || ('a' ≤ c && c ≤ 'f') || ('A' ≤ c && c ≤ 'F')

/-- Value of a hexadecimal digit. -/
def hexValCh (c : Char) : Nat :=
  if c.isDigit then c.toNat - '0'.toNat
  else if 'a' ≤ c && c ≤ 'f' then c.toNat - 'a'.toNat + 10
  else c.toNat - 'A'.toNat + 10

/-- Parse the body of a JSON string after the opening quote; returns the
decoded characters and the remainder after the closing quote. Escapes follow
`JSON.parse`; a lone surrogate escape (which JavaScript keeps as an unpaired
code unit, unrepresentable in `Char`) is modelled as U+FFFD. Fuel-based
recursion; every step consumes at least one character, so fuel of the input
length plus one suffices. -/
def parseStringBody (fuel : Nat) (l : List Char) : Option (List Char × List Char) :=
  match fuel with
  | 0 => none
  | f + 1 =>
    match l with
    | [] => none
    | '"' :: t => some ([], t)
    | '\\' :: '"' :: u => (parseStringBody f u).map (fun p => ('"' :: p.1, p.2))
    | '\\' :: '\\' :: u => (parseStringBody f u).map (fun p => ('\\' :: p.1, p.2))
    | '\\' :: '/' :: u => (parseStringBody f u).map (fun p => ('/' :: p.1, p.2))
    | '\\' :: 'b' :: u => (parseStringBody f u).map (fun p => ('\x08' :: p.1, p.2))
    | '\\' :: 'f' :: u => (parseStringBody f u).map (fun p => ('\x0c' :: p.1, p.2))
    | '\\' :: 'n' :: u => (parseStringBody f u).map (fun p => ('\x0a' :: p.1, p.2))
    | '\\' :: 'r' :: u => (parseStringBody f u).map (fun p => ('\x0d' :: p.1, p.2))
    | '\\' :: 't' :: u => (parseStringBody f u).map (fun p => ('\x09' :: p.1, p.2))
    | '\\' :: 'u' :: a :: b :: c :: d :: '\\' :: 'u' :: a2 :: b2 :: c2 :: d2 :: u2 =>
      if isHexDigitCh a && isHexDigitCh b && isHexDigitCh c && isHexDigitCh d then
        let n := ((hexValCh a * 16 + hexValCh b) * 16 + hexValCh c) * 16 + hexValCh d
        if 0xD800 ≤ n ∧ n ≤ 0xDBFF then
          if isHexDigitCh a2 && isHexDigitCh b2 && isHexDigitCh c2 && isHexDigitCh d2 then
            let m := ((hexValCh a2 * 16 + hexValCh b2) * 16 + hexValCh c2) * 16 + hexValCh d2
            if 0xDC00 ≤ m ∧ m ≤ 0xDFFF then
              (parseStringBody f u2).map
                (fun p => (Char.ofNat (0x10000 + (n - 0xD800) * 0x400 + (m - 0xDC00)) :: p.1, p.2))
            else
              (parseStringBody f ('\\' :: 'u' :: a2 :: b2 :: c2 :: d2 :: u2)).map
                (fun p => ('�' :: p.1, p.2))
          else
            (parseStringBody f ('\\' :: 'u' :: a2 :: b2 :: c2 :: d2 :: u2)).map
              (fun p => ('�' :: p.1, p.2))
        else if 0xDC00 ≤ n ∧ n ≤ 0xDFFF then
          (parseStringBody f ('\\' :: 'u' :: a2 :: b2 :: c2 :: d2 :: u2)).map
            (fun p => ('�' :: p.1, p.2))
        else
          (parseStringBody f ('\\' :: 'u' :: a2 :: b2 :: c2 :: d2 :: u2)).map
            (fun p => (Char.ofNat n :: p.1, p.2))
      else none
    | '\\' :: 'u' :: a :: b :: c :: d :: u =>
      if isHexDigitCh a && isHexDigitCh b && isHexDigitCh c && isHexDigitCh d then
        let n := ((hexValCh a * 16 + hexValCh b) * 16 + hexValCh c) * 16 + hexValCh d
        if 0xD800 ≤ n ∧ n ≤ 0xDBFF then (parseStringBody f u).map (fun p => ('�' :: p.1, p.2))
        else if 0xDC00 ≤ n ∧ n ≤ 0xDFFF then (parseStringBody f u).map (fun p => ('�' :: p.1, p.2))
        else (parseStringBody f u).map (fun p => (Char.ofNat n :: p.1, p.2))
      else none
    | '\\' :: _ => none
    | c :: t =>
      if c.toNat < 0x20 then none
      else (parseStringBody f t).map (fun p => (c :: p.1, p.2))
termination_by structural fuel

/-- Optional fraction and exponent of a JSON number; consumed only when
syntactically complete, otherwise left for the caller (which then fails on
the stray character exactly as `JSON.parse` does). -/
def parseFracExp (l : List Char) : List Char × List Char :=
  let fr : List Char × List Char :=
    match l with
    | '.' :: t =>
      match t.takeWhile Char.isDigit with
      | [] => ([], l)
      | ds => ('.' :: ds, t.dropWhile Char.isDigit)
    | _ => ([], l)
  let l1 := fr.2
  let ex : List Char × List Char :=
    match l1 with
    | e :: t =>
      if e = 'e' ∨ e = 'E' then
        match t with
        | s :: t2 =>
          if s = '+' ∨ s = '-' then
            match t2.takeWhile Char.isDigit with
            | [] => ([], l1)
            | ds => (e :: s :: ds, t2.dropWhile Char.isDigit)
          else
            match t.takeWhile Char.isDigit with
            | [] => ([], l1)
            | ds => (e :: ds, t.dropWhile Char.isDigit)
        | [] => ([], l1)
      else ([], l1)
    | [] => ([], l1)
  (fr.1 ++ ex.1, ex.2)

/-- Lex one JSON number token (`-?(0|[1-9][0-9]*)(.digits)?([eE][+-]?digits)?`). -/
def parseNumTok (l : List Char) : Option (List Char × List Char) :=
  let sp : List Char × List Char :=
    match l with
    | '-' :: t => (['-'], t)
    | _ => ([], l)
  match sp.2 with
  | c :: t =>
    if c = '0' then
      let fe := parseFracExp t
      some (sp.1 ++ [c] ++ fe.1, fe.2)
    else if c.isDigit then
      let ds := t.takeWhile Char.isDigit
      let t2 := t.dropWhile Char.isDigit
      let fe := parseFracExp t2
      some (sp.1 ++ (c :: ds) ++ fe.1, fe.2)
    else none
  | [] => none

mutual

/-- Parse one JSON value (fuel-based recursion; every recursive call consumes
at least one character first, so fuel of twice the input length suffices). -/
def parseVal (fuel : Nat) (l : List Char) : Option (Json × List Char) :=
  match fuel with
  | 0 => none
  | f + 1 =>
    let l1 := skipWs l
    match l1 with
    | 't' :: 'r' :: 'u' :: 'e' :: rest => some (Json.bool true, rest)
    | 'f' :: 'a' :: 'l' :: 's' :: 'e' :: rest => some (Json.bool false, rest)
    | 'n' :: 'u' :: 'l' :: 'l' :: rest => some (Json.null, rest)
    | '"' :: t =>
      match parseStringBody (t.length + 1) t with
      | some (cs, rest) => some (Json.str ⟨cs⟩, rest)
      | none => none
    | '\x7b' :: t =>
      match skipWs t with
      | '\x7d' :: rest => some (Json.obj [], rest)
      | _ =>
        match parseMembers f t with
        | some (fields, rest) => some (Json.obj fields, rest)
        | none => none
    | '[' :: t =>
      match skipWs t with
      | ']' :: rest => some (Json.arr [], rest)
      | _ =>
        match parseItems f t with
        | some (items, rest) => some (Json.arr items, rest)
        | none => none
    | _ =>
      match parseNumTok l1 with
      | some (tok, rest) => some (Json.num ⟨tok⟩, rest)
      | none => none
termination_by structural fuel

/-- Parse the members of a JSON object after the opening brace (nonempty case). -/
def parseMembers (fuel : Nat) (l : List Char) : Option (List (String × Json) × List Char) :=
  match fuel with
  | 0 => none
  | f + 1 =>
    match skipWs l with
    | '"' :: t =>
      match parseStringBody (t.length + 1) t with
      | some (key, t2) =>
        match skipWs t2 with
        | ':' :: t3 =>
          match parseVal f t3 with
          | some (v, t4) =>
            match skipWs t4 with
            | ',' :: t5 =>
              match parseMembers f t5 with
              | some (rest, t6) => some ((⟨key⟩, v) :: rest, t6)
              | none => none
            | '\x7d' :: t5 => some ([(⟨key⟩, v)], t5)
            | _ => none
          | none => none
        | _ => none
      | none => none
    | _ => none
termination_by structural fuel

/-- Parse the items of a JSON array after the opening bracket (nonempty case). -/
def parseItems (fuel : Nat) (l : List Char) : Option (List Json × List Char) :=
  match fuel with
  | 0 => none
  | f + 1 =>
    match parseVal f l with
    | some (v, t) =>
      match skipWs t with
      | ',' :: t2 =>
        match parseItems f t2 with
        | some (items, t3) => some (v :: items, t3)
        | none => none
      | ']' :: t2 => some ([v], t2)
      | _ => none
    | none => none
termination_by structural fuel

end

/-- Model of `JSON.parse`: the whole input, up to surrounding whitespace, must
be a single JSON value; `none` models the thrown `SyntaxError`. -/
def parseJson (s : String) : Option Json :=
  match parseVal (2 * s.data.length + 4) s.data with
  | some (v, rest) =>
    match skipWs rest with
    | [] => some v
    | _ => none
  | none => none

/-- Property access `v.k` on a parsed value: defined bindings only on objects,
later duplicate keys shadowing earlier ones as in JavaScript. -/
def jsGet (v : Json) (k : String) : Option Json :=
  match v with
  | Json.obj fields => fields.foldl (fun acc p => if p.1 = k then some p.2 else acc) none
  | _ => none

/-- Is the mantissa of a number token all zeros? (Double-precision underflow
of nonzero literals with huge negative exponents is not modelled; no claim
depends on numeric truthiness.) -/
def numTokenIsZero (tok : String) : Bool :=
  (tok.data.takeWhile (fun c => c ≠ 'e' ∧ c ≠ 'E')).all
    (fun c => !('1' ≤ c && c ≤ '9'))

/-- JavaScript truthiness of a parsed JSON value. -/
def jsTruthy : Json → Bool
  | Json.null => false
  | Json.bool b => b
  | Json.num tok => !numTokenIsZero tok
  | Json.str s => !s.isEmpty
  | Json.arr _ => true
  | Json.obj _ => true

example : parseJson "\x7b\"a\":1\x7d" = some (Json.obj [("a", Json.num "1")]) := rfl
example : parseJson "\x7b\"a\":1" = none := rfl
example : parseJson " [true, null, \"x\\n\", -1.5e2] " =
    some (Json.arr [Json.bool true, Json.null, Json.str "x\x0a", Json.num "-1.5e2"]) := rfl
example : parseJson "01" = none := rfl
example : jsGet (Json.obj [("a", Json.num "1"), ("a", Json.num "2")]) "a" = some (Json.num "2") := rfl
example : jsTruthy (Json.num "-0.0e7") = false := rfl

/-- State of the client page during `streamInstructions`: the accumulated
stream text (`accumulatedText`, mirrored into the instructions panel), the
currently surfaced `narrativeGuide` (initially `null`), and the user-visible
error message (initially cleared). -/
structure DecoderState where
  buffer : String
  guide : Option Json
  errorMsg : Option String

/-- State right after `streamInstructions` resets its pieces of state
(`setError(null)`, `setAnimationInstructions("")`, `setNarrativeGuide(null)`). -/
def initDecoderState : DecoderState := ⟨"", none, none⟩

/-- The span matched by the first-match regex over the buffer (an opening
brace, any characters, a closing brace, with the quantifier greedy): the
substring from the first opening brace through the last closing brace,
when both exist in that order. -/
def extractBraceSpan (s : String) : Option String :=
  let t := s.data.dropWhile (fun c => c ≠ '\x7b')
  let u := (t.reverse.dropWhile (fun c => c ≠ '\x7d')).reverse
  match u with
  | [] => none
  | [_] => none
  | _ => some ⟨u⟩

/-- The guide surfaced by one mid-stream extraction attempt over the buffer:
the span must exist, parse as JSON, and carry a truthy `narrativeGuide`
property; otherwise nothing is surfaced. -/
def surfacedGuide (buf : String) : Option Json :=
  match extractBraceSpan buf with
  | some span =>
    match parseJson span with
    | some v =>
      match jsGet v "narrativeGuide" with
      | some g => if jsTruthy g then some g else none
      | none => none
    | none => none
  | none => none

/-- One loop iteration of `streamInstructions`: append the decoded chunk to
the accumulated text, then try the regex extraction and parse; a parse
failure is swallowed (`catch` with empty body) and only a successful parse
with a truthy `narrativeGuide` updates the surfaced guide. -/
def processChunk (s : DecoderState) (chunk : String) : DecoderState :=
  let buf := s.buffer ++ chunk
  match surfacedGuide buf with
  | some g => { s with buffer := buf, guide := some g }
  | none => { s with buffer := buf }

/-- The final parse attempt after the stream ends: `JSON.parse` over the full
accumulated text (not the regex span); failure is tolerated and leaves the
previously surfaced guide in place. -/
def finalGuide (buf : String) (old : Option Json) : Option Json :=
  match parseJson buf with
  | some v =>
    match jsGet v "narrativeGuide" with
    | some g => if jsTruthy g then some g else old
    | none => old
  | none => old

/-- Observable outcome of one `streamInstructions` invocation. -/
structure StreamRun where
  finalState : DecoderState
  finalParseAttempted : Bool
  compilerInput : Option String

/-- A complete (non-aborted) run of `streamInstructions` over the chunk
sequence delivered by the reader: fold the per-chunk step, run the final
parse attempt, then hand the accumulated text to
`generateVisualizationFromInstructions`. -/
def streamInstructionsRun (chunks : List String) : StreamRun :=
  let s := chunks.foldl processChunk initDecoderState
  let s2 := { s with guide := finalGuide s.buffer s.guide }
  ⟨s2, true, some s2.buffer⟩

/-- A run aborted by `handleStopInstructions` while the stream is in flight,
after `k` chunks were delivered: the pending read rejects with `AbortError`,
which the `catch` recognizes by name and returns from early, so the final
parse never runs, the compiler is never invoked, and no error is set. -/
def streamInstructionsAborted (chunks : List String) (k : Nat) : StreamRun :=
  let s := (chunks.take k).foldl processChunk initDecoderState
  ⟨s, false, none⟩

/-- One step leaves the error message alone and appends the chunk. -/
theorem processChunk_buffer (s : DecoderState) (c : String) :
    (processChunk s c).buffer = s.buffer ++ c := by
  unfold processChunk
  cases h : surfacedGuide (s.buffer ++ c) <;> simp [h]

/-- One step never sets an error message. -/
theorem processChunk_errorMsg (s : DecoderState) (c : String) :
    (processChunk s c).errorMsg = s.errorMsg := by
  unfold processChunk
  cases h : surfacedGuide (s.buffer ++ c) <;> simp [h]

/-- When the extraction attempt surfaces nothing, the step only accumulates. -/
theorem processChunk_of_none (s : DecoderState) (c : String)
    (h : surfacedGuide (s.buffer ++ c) = none) :
    processChunk s c = { s with buffer := s.buffer ++ c } := by
  unfold processChunk
  simp [h]

/-- Folding the per-chunk step concatenates the chunks onto the buffer. -/
theorem foldl_processChunk_buffer (chunks : List String) (s : DecoderState) :
    (chunks.foldl processChunk s).buffer = chunks.foldl (fun b c => b ++ c) s.buffer := by
  induction chunks generalizing s with
  | nil => rfl
  | cons c rest ih =>
    simp only [List.foldl_cons]
    rw [ih, processChunk_buffer]

/-- Folding the per-chunk step never touches the error message. -/
theorem foldl_processChunk_errorMsg (chunks : List String) (s : DecoderState) :
    (chunks.foldl processChunk s).errorMsg = s.errorMsg := by
  induction chunks generalizing s with
  | nil => rfl
  | cons c rest ih =>
    simp only [List.foldl_cons]
    rw [ih, processChunk_errorMsg]

/-- If no intermediate buffer ever surfaces a guide, the guide is unchanged
by the fold. -/
theorem foldl_processChunk_guide_none (chunks : List String) (s : DecoderState)
    (h : ∀ j, j < chunks.length →
      surfacedGuide (List.foldl (fun b c => b ++ c) s.buffer (chunks.take (j + 1))) = none) :
    (chunks.foldl processChunk s).guide = s.guide := by
  induction chunks generalizing s with
  | nil => rfl
  | cons c rest ih =>
    simp only [List.foldl_cons]
    have h0 := h 0 (by simp)
    simp only [List.take, List.foldl_cons, List.foldl_nil] at h0
    rw [processChunk_of_none s c h0]
    refine (ih _ ?_).trans rfl
    intro j hj
    have := h (j + 1) (by simpa using Nat.succ_lt_succ hj)
    simpa only [List.take, List.foldl_cons] using this

/-- `String.join` is the left fold of append. -/
theorem join_eq_foldl_append (l : List String) :
    String.join l = List.foldl (fun b c => b ++ c) "" l := rfl

/-- A mid-stream attempt surfaces nothing when the regex finds no span or the
span does not parse. -/
theorem surfacedGuide_eq_none (buf : String)
    (h : extractBraceSpan buf = none ∨
      ∀ span, extractBraceSpan buf = some span → parseJson span = none) :
    surfacedGuide buf = none := by
  unfold surfacedGuide
  rcases h with h | h
  · rw [h]
  · cases he : extractBraceSpan buf with
    | none => rfl
    | some span =>
      simp only []
      rw [h span he]

/-- Inversion: a surfaced guide comes from a span that parsed, with a truthy
`narrativeGuide` property. -/
theorem surfacedGuide_inv (buf : String) (g : Json) (h : surfacedGuide buf = some g) :
    ∃ span doc, extractBraceSpan buf = some span ∧ parseJson span = some doc ∧
      jsGet doc "narrativeGuide" = some g ∧ jsTruthy g = true := by
  unfold surfacedGuide at h
  cases he : extractBraceSpan buf with
  | none => rw [he] at h; simp at h
  | some span =>
    rw [he] at h
    simp only [] at h
    cases hp : parseJson span with
    | none => rw [hp] at h; simp at h
    | some doc =>
      rw [hp] at h
      simp only [] at h
      cases hgf : jsGet doc "narrativeGuide" with
      | none => rw [hgf] at h; simp at h
      | some g0 =>
        rw [hgf] at h
        simp only [] at h
        by_cases ht : jsTruthy g0 = true
        · rw [if_pos ht] at h
          obtain rfl : g0 = g := by simpa using h
          exact ⟨span, doc, rfl, hp, hgf, ht⟩
        · rw [if_neg ht] at h
          simp at h

/-- C1: for every well-formed `InstructionDocument` JSON text that parses with
a (truthy) `narrativeGuide` field, and every partition of that text into
non-empty chunks, running the instruction-stream decoder to completion
surfaces a `narrativeGuide` equal to the one obtained by parsing the fully
concatenated text in one shot. -/
theorem streamInstructions_chunked_surfaces_one_shot_guide
    (chunks : List String) (txt : String) (doc g : Json)
    (_hne : ∀ c ∈ chunks, c ≠ "")
    (hjoin : String.join chunks = txt)
    (hparse : parseJson txt = some doc)
    (hget : jsGet doc "narrativeGuide" = some g)
    (htruthy : jsTruthy g = true) :
    (streamInstructionsRun chunks).finalState.guide = some g := by
  have hbuf : (chunks.foldl processChunk initDecoderState).buffer = txt := by
    rw [foldl_processChunk_buffer, show initDecoderState.buffer = "" from rfl,
      ← join_eq_foldl_append, hjoin]
  show finalGuide (chunks.foldl processChunk initDecoderState).buffer
      (chunks.foldl processChunk initDecoderState).guide = some g
  rw [hbuf]
  unfold finalGuide
  rw [hparse]
  simp only []
  rw [hget]
  simp only []
  rw [if_pos htruthy]

/-- C1 witness: a two-chunk split of a concrete document. -/
theorem streamInstructions_chunked_surfaces_one_shot_guide_witness :
    (streamInstructionsRun
        ["\x7b\"narrativeGuide\":", "\x7b\"introduction\":\"hi\"\x7d\x7d"]).finalState.guide =
      some (Json.obj [("introduction", Json.str "hi")]) :=
  streamInstructions_chunked_surfaces_one_shot_guide
    ["\x7b\"narrativeGuide\":", "\x7b\"introduction\":\"hi\"\x7d\x7d"]
    "\x7b\"narrativeGuide\":\x7b\"introduction\":\"hi\"\x7d\x7d"
    (Json.obj [("narrativeGuide", Json.obj [("introduction", Json.str "hi")])])
    (Json.obj [("introduction", Json.str "hi")])
    (by decide) rfl rfl rfl rfl

/-- C2: an aborted in-flight stream performs no final parse, never invokes the
downstream compiler, sets no user-visible error, accumulates only the chunks
delivered before the abort, and — when the abort precedes the first
successful partial parse — leaves no surfaced `narrativeGuide`. -/
theorem streamInstructionsAborted_no_observable_change (chunks : List String) (k : Nat)
    (hq : ∀ j, j < (chunks.take k).length →
      surfacedGuide (String.join ((chunks.take k).take (j + 1))) = none) :
    (streamInstructionsAborted chunks k).finalParseAttempted = false ∧
    (streamInstructionsAborted chunks k).compilerInput = none ∧
    (streamInstructionsAborted chunks k).finalState.errorMsg = none ∧
    (streamInstructionsAborted chunks k).finalState.buffer = String.join (chunks.take k) ∧
    (streamInstructionsAborted chunks k).finalState.guide = none := by
  refine ⟨rfl, rfl, ?_, ?_, ?_⟩
  · show ((chunks.take k).foldl processChunk initDecoderState).errorMsg = none
    rw [foldl_processChunk_errorMsg]
    rfl
  · show ((chunks.take k).foldl processChunk initDecoderState).buffer = _
    rw [foldl_processChunk_buffer, show initDecoderState.buffer = "" from rfl,
      join_eq_foldl_append]
  · show ((chunks.take k).foldl processChunk initDecoderState).guide = none
    refine (foldl_processChunk_guide_none _ _ ?_).trans rfl
    intro j hj
    rw [show initDecoderState.buffer = "" from rfl, ← join_eq_foldl_append]
    exact hq j hj

/-- C2 witness: aborting after the first chunk of a split document. -/
theorem streamInstructionsAborted_no_observable_change_witness :
    (streamInstructionsAborted ["\x7b\"narrativeGuide\":", "\x7b\"a\":1\x7d\x7d"] 1).finalState.guide
        = none ∧
      (streamInstructionsAborted ["\x7b\"narrativeGuide\":", "\x7b\"a\":1\x7d\x7d"] 1).compilerInput
        = none :=
  have h := streamInstructionsAborted_no_observable_change
    ["\x7b\"narrativeGuide\":", "\x7b\"a\":1\x7d\x7d"] 1
    (by
      intro j hj
      have hj1 : j < 1 := by simpa using hj
      have hj0 : j = 0 := Nat.lt_one_iff.mp hj1
      subst hj0
      rfl)
  ⟨h.2.2.2.2, h.2.1⟩

/-- C3: during streaming, a guide is surfaced only when the extracted span
parses successfully as JSON; when the regex finds no span or the span fails
to parse, the step has no side effect beyond accumulation (guide and error
untouched, buffer extended by the chunk). -/
theorem processChunk_surfaces_only_on_parse_success (s : DecoderState) (chunk : String) :
    ((extractBraceSpan (s.buffer ++ chunk) = none ∨
        ∀ span, extractBraceSpan (s.buffer ++ chunk) = some span → parseJson span = none) →
      processChunk s chunk = { s with buffer := s.buffer ++ chunk }) ∧
    ((processChunk s chunk).guide ≠ s.guide →
      ∃ span doc, extractBraceSpan (s.buffer ++ chunk) = some span ∧
        parseJson span = some doc ∧
        ∃ g, jsGet doc "narrativeGuide" = some g ∧ jsTruthy g = true ∧
          (processChunk s chunk).guide = some g) := by
  constructor
  · intro h
    exact processChunk_of_none s chunk (surfacedGuide_eq_none _ h)
  · intro hne
    cases hg : surfacedGuide (s.buffer ++ chunk) with
    | none =>
      exact absurd (by rw [processChunk_of_none s chunk hg]) hne
    | some g =>
      have hgu : (processChunk s chunk).guide = some g := by
        unfold processChunk
        simp [hg]
      obtain ⟨span, doc, he, hp, hf, ht⟩ := surfacedGuide_inv _ _ hg
      exact ⟨span, doc, he, hp, g, hf, ht, hgu⟩

/-- C3 witness: a chunk whose buffer has no closing brace yet is pure
accumulation. -/
theorem processChunk_surfaces_only_on_parse_success_witness :
    processChunk initDecoderState "\x7b\"a\":" =
      { initDecoderState with buffer := initDecoderState.buffer ++ "\x7b\"a\":" } :=
  (processChunk_surfaces_only_on_parse_success initDecoderState "\x7b\"a\":").1 (Or.inl rfl)

/-- JavaScript whitespace (the class matched by `\s` and trimmed by
`String.prototype.trim`). -/
def isJsWhitespace (c : Char) : Bool :=
  c = '\x09' || c = '\x0a' || c = '\x0b' || c = '\x0c' || c = '\x0d' || c = ' ' ||
  c = '\xa0' || c = '\u1680' || ('\u2000' ≤ c && c ≤ '\u200a') ||
  c = '\u2028' || c = '\u2029' || c = '\u202f' || c = '\u205f' ||
  c = '\u3000' || c = '\ufeff'

/-- ASCII letters and digits, the class `[a-zA-Z0-9]` of the leading-fence
regex. -/
def isAsciiAlnum (c : Char) : Bool :=
  ('a' ≤ c && c ≤ 'z') || ('A' ≤ c && c ≤ 'Z') || c.isDigit

/-- Remove the trailing run of JavaScript whitespace. -/
def trimEndWs : List Char → List Char
  | [] => []
  | a :: t =>
    match trimEndWs t with
    | [] => if isJsWhitespace a then [] else [a]
    | b :: u => a :: b :: u

/-- Model of `String.prototype.trim`: drop leading and trailing whitespace. -/
def jsTrimL (l : List Char) : List Char :=
  trimEndWs (l.dropWhile isJsWhitespace)

/-- Does `l` start with the pattern `pat` (JavaScript `startsWith`)? -/
def listStarts (pat l : List Char) : Bool :=
  decide (l.take pat.length = pat)

/-- Does `l` end with the pattern `pat` (JavaScript `endsWith`)? -/
def listEnds (pat l : List Char) : Bool :=
  decide (l.reverse.take pat.length = pat.reverse)

/-- The triple-backtick fence delimiter. -/
def fence : List Char := ['\x60', '\x60', '\x60']

/-- The leading-fence strip: when the code starts with a fence, the
first-match replace of `three backticks, then ASCII alphanumerics, then
whitespace` (all greedy) removes exactly that prefix. -/
def stripLead (l : List Char) : List Char :=
  if listStarts fence l then
    ((l.drop 3).dropWhile isAsciiAlnum).dropWhile isJsWhitespace
  else l

/-- The trailing-fence strip: when the code ends with a fence, the
end-anchored replace of `three-or-more backticks` removes the whole
trailing backtick run. -/
def stripTrail (l : List Char) : List Char :=
  if listEnds fence l then
    (l.reverse.dropWhile (fun c => c = '\x60')).reverse
  else l

/-- `stripMarkdownFences` from the generate-visualization route: trim, strip a
leading fence marker (with optional language tag), strip a trailing fence
marker, trim again. -/
def stripMarkdownFences (output : String) : String :=
  ⟨jsTrimL (stripTrail (stripLead (jsTrimL output.data)))⟩

/-- The seven tag/doctype substrings `isLikelyCompleteHtml` requires: doctype
declaration plus opening and closing tags for `html`, `head`, `body`
(spelled from the spec's enumeration). -/
def requiredHtmlMarkers : List String :=
  ["<!doctype html", "<html", "</html>", "<head", "</head>", "<body", "</body>"]

/-- Substring containment (JavaScript `String.prototype.includes`). -/
def containsSub (pat : List Char) : List Char → Bool
  | [] => listStarts pat []
  | a :: t => listStarts pat (a :: t) || containsSub pat t

/-- `isLikelyCompleteHtml` from the generate-visualization route: lower-case
the text and require each structural substring. -/
def isLikelyCompleteHtml (html : String) : Bool :=
  let lower := html.data.map Char.toLower
  containsSub "<!doctype html".data lower &&
  containsSub "<html".data lower &&
  containsSub "</html>".data lower &&
  containsSub "<head".data lower &&
  containsSub "</head>".data lower &&
  containsSub "<body".data lower &&
  containsSub "</body>".data lower

example : isLikelyCompleteHtml
    "<!DOCTYPE html><HTML lang=\"en\"><head></head><body></body></html>" = true := by decide
example : isLikelyCompleteHtml
    "<!DOCTYPE html><html><body></body></html>" = false := by decide
example : stripMarkdownFences "\x60\x60\x60html\x0ahello\x60\x60\x60" = "hello" := by decide
example : stripMarkdownFences "  plain  " = "plain" := by decide

/-- The head of a list, if any, is not JavaScript whitespace. -/
def headNotWs : List Char → Prop
  | [] => True
  | a :: _ => isJsWhitespace a = false

/-- Dropping leading whitespace leaves a non-whitespace head. -/
theorem headNotWs_dropWhile (l : List Char) :
    headNotWs (l.dropWhile isJsWhitespace) := by
  induction l with
  | nil => trivial
  | cons a t ih =>
    by_cases h : isJsWhitespace a = true
    · simpa [List.dropWhile_cons, h] using ih
    · have h' : isJsWhitespace a = false := by simpa using h
      simp [List.dropWhile_cons, h', headNotWs]

/-- Dropping leading whitespace is the identity on left-trimmed lists. -/
theorem dropWhile_of_headNotWs (l : List Char) (h : headNotWs l) :
    l.dropWhile isJsWhitespace = l := by
  cases l with
  | nil => rfl
  | cons a t =>
    have h' : isJsWhitespace a = false := h
    simp [List.dropWhile_cons, h']

/-- Removing trailing whitespace preserves a non-whitespace head. -/
theorem headNotWs_trimEndWs (l : List Char) (h : headNotWs l) :
    headNotWs (trimEndWs l) := by
  cases l with
  | nil => trivial
  | cons a t =>
    show headNotWs (match trimEndWs t with
      | [] => if isJsWhitespace a then [] else [a]
      | b :: u => a :: b :: u)
    cases trimEndWs t with
    | nil =>
      by_cases ha : isJsWhitespace a = true
      · simp [ha, headNotWs]
      · have ha' : isJsWhitespace a = false := by simpa using ha
        simp [ha', headNotWs]
    | cons b u => exact h

/-- Removing trailing whitespace is idempotent. -/
theorem trimEndWs_idem (l : List Char) : trimEndWs (trimEndWs l) = trimEndWs l := by
  induction l with
  | nil => rfl
  | cons a t ih =>
    have e : trimEndWs (a :: t) = match trimEndWs t with
      | [] => if isJsWhitespace a then [] else [a]
      | b :: u => a :: b :: u := rfl
    cases htr : trimEndWs t with
    | nil =>
      rw [e, htr]
      by_cases ha : isJsWhitespace a = true
      · simp [ha, trimEndWs]
      · have ha' : isJsWhitespace a = false := by simpa using ha
        simp [ha', trimEndWs]
    | cons b u =>
      rw [e, htr]
      have h2 : trimEndWs (b :: u) = b :: u := by rw [← htr, ih]
      show (match trimEndWs (b :: u) with
        | [] => if isJsWhitespace a then [] else [a]
        | c :: v => a :: c :: v) = a :: b :: u
      rw [h2]

/-- The JavaScript trim is idempotent. -/
theorem jsTrimL_idem (l : List Char) : jsTrimL (jsTrimL l) = jsTrimL l := by
  unfold jsTrimL
  rw [dropWhile_of_headNotWs _ (headNotWs_trimEndWs _ (headNotWs_dropWhile l)), trimEndWs_idem]

/-- Without a leading fence, the leading strip is the identity. -/
theorem stripLead_eq_of_no_fence (l : List Char) (h : listStarts fence l = false) :
    stripLead l = l := by
  unfold stripLead
  simp [h]

/-- Without a trailing fence, the trailing strip is the identity. -/
theorem stripTrail_eq_of_no_fence (l : List Char) (h : listEnds fence l = false) :
    stripTrail l = l := by
  unfold stripTrail
  simp [h]

/-- C4: `isLikelyCompleteHtml` returns true exactly when every one of the
required tag/doctype substrings — the doctype declaration and the opening and
closing tags for `html`, `head`, and `body` — occurs in the lower-cased text;
it returns false as soon as any one is missing. -/
theorem isLikelyCompleteHtml_iff_markers (html : String) :
    isLikelyCompleteHtml html = true ↔
      ∀ m ∈ requiredHtmlMarkers, containsSub m.data (html.data.map Char.toLower) = true := by
  simp [isLikelyCompleteHtml, requiredHtmlMarkers, and_assoc]

/-- C5 counterexample: an input with two fence pairs on which one application
leaves a leading fence, so a second application strips further. -/
theorem stripMarkdownFences_not_idempotent_two_pairs :
    stripMarkdownFences (stripMarkdownFences
        "\x60\x60\x60a\x60\x60\x60 middle \x60\x60\x60b\x60\x60\x60") ≠
      stripMarkdownFences "\x60\x60\x60a\x60\x60\x60 middle \x60\x60\x60b\x60\x60\x60" := by
  decide

/-- C5 (amended): `stripMarkdownFences` is idempotent on every input whose
single application yields a result that neither starts nor ends with a fence
marker — in particular on inputs with zero fence pairs or a single fence pair
wrapping the content; an input with two fence pairs can leave a fence at a
boundary and strip further on the second pass. -/
theorem stripMarkdownFences_idem_of_unfenced_result (s : String)
    (h1 : listStarts fence (stripMarkdownFences s).data = false)
    (h2 : listEnds fence (stripMarkdownFences s).data = false) :
    stripMarkdownFences (stripMarkdownFences s) = stripMarkdownFences s := by
  have h1' : listStarts fence (jsTrimL (stripTrail (stripLead (jsTrimL s.data)))) = false := h1
  have h2' : listEnds fence (jsTrimL (stripTrail (stripLead (jsTrimL s.data)))) = false := h2
  show (⟨jsTrimL (stripTrail (stripLead
      (jsTrimL (jsTrimL (stripTrail (stripLead (jsTrimL s.data)))))))⟩ : String) =
    ⟨jsTrimL (stripTrail (stripLead (jsTrimL s.data)))⟩
  rw [jsTrimL_idem, stripLead_eq_of_no_fence _ h1', stripTrail_eq_of_no_fence _ h2',
    jsTrimL_idem]

/-- C5 witness: a single fence pair wrapping the content strips to a stable
result. -/
theorem stripMarkdownFences_idem_witness :
    stripMarkdownFences (stripMarkdownFences "\x60\x60\x60html\x0ahello world\x60\x60\x60") =
      stripMarkdownFences "\x60\x60\x60html\x0ahello world\x60\x60\x60" :=
  stripMarkdownFences_idem_of_unfenced_result
    "\x60\x60\x60html\x0ahello world\x60\x60\x60" (by decide) (by decide)

/-- The hosted document as the step-relay sees it: whether the iframe handle
exposes its window and document, whether the document defines a global
entry point named stepForward, and whether a direct invocation of that entry
point throws (covering a non-callable binding as well). -/
structure IframeTarget where
  contentWindowPresent : Bool
  contentDocumentPresent : Bool
  stepForwardDefined : Bool
  directCallThrows : Bool

/-- Observable outcome of one host-level step-forward invocation: whether an
exception escaped to the caller, whether the direct in-frame call was
attempted, and the payload types posted to the hosted document. -/
structure StepRelayOutcome where
  raised : Bool
  directCallAttempted : Bool
  postedMessages : List String

/-- The `stepForward` handler of `HTMLRenderer`: bail out silently without an
iframe or without window/document access; otherwise optional-chain the global
entry point — undefined short-circuits to a no-op — and post the
`stepForward` message only when the direct call throws; the outer catch logs
and swallows everything, so nothing ever escapes. -/
def hostStepForward (iframe : Option IframeTarget) : StepRelayOutcome :=
  match iframe with
  | none => ⟨false, false, []⟩
  | some t =>
    if t.contentWindowPresent && t.contentDocumentPresent then
      if t.stepForwardDefined then
        if t.directCallThrows then ⟨false, true, ["stepForward"]⟩
        else ⟨false, true, []⟩
      else ⟨false, false, []⟩
    else ⟨false, false, []⟩

/-- C6 counterexample: a loaded document that does not define
`window.stepForward` — the optional call is a silent no-op, so no
`stepForward` message is ever posted, contrary to the claimed fallback. -/
theorem hostStepForward_missing_entry_posts_nothing :
    (hostStepForward (some ⟨true, true, false, false⟩)).raised = false ∧
      (hostStepForward (some ⟨true, true, false, false⟩)).postedMessages = [] :=
  ⟨rfl, rfl⟩

/-- C6 (amended): invoking step-forward through the host never raises; when
the hosted document lacks the entry point the optional call is a silent
no-op and no message is posted; the `stepForward` message fallback fires
exactly when a direct call attempt throws. -/
theorem hostStepForward_never_raises_fallback_on_throw (iframe : Option IframeTarget) :
    (hostStepForward iframe).raised = false ∧
    (∀ t, iframe = some t → t.stepForwardDefined = false →
      hostStepForward iframe = ⟨false, false, []⟩) ∧
    (∀ t, iframe = some t → t.contentWindowPresent = true →
      t.contentDocumentPresent = true → t.stepForwardDefined = true →
      t.directCallThrows = true →
      (hostStepForward iframe).postedMessages = ["stepForward"]) := by
  refine ⟨?_, ?_, ?_⟩
  · cases iframe with
    | none => rfl
    | some t =>
      obtain ⟨w, d, sf, th⟩ := t
      cases w <;> cases d <;> cases sf <;> cases th <;> rfl
  · intro t ht hsf
    subst ht
    obtain ⟨w, d, sf, th⟩ := t
    have hsf' : sf = false := hsf
    subst hsf'
    cases w <;> cases d <;> cases th <;> rfl
  · intro t ht hw hd hsf hth
    subst ht
    obtain ⟨w, d, sf, th⟩ := t
    have hw' : w = true := hw
    have hd' : d = true := hd
    have hsf' : sf = true := hsf
    have hth' : th = true := hth
    subst hw' hd' hsf' hth'
    rfl

/-- C6 witness: a document lacking the entry point is a raise-free no-op. -/
theorem hostStepForward_never_raises_witness :
    (hostStepForward (some ⟨true, true, false, true⟩)).raised = false ∧
      hostStepForward (some ⟨true, true, false, true⟩) = ⟨false, false, []⟩ :=
  ⟨(hostStepForward_never_raises_fallback_on_throw (some ⟨true, true, false, true⟩)).1,
    (hostStepForward_never_raises_fallback_on_throw (some ⟨true, true, false, true⟩)).2.1
      ⟨true, true, false, true⟩ rfl rfl⟩

/-- The recorder environment at the start of `downloadAnimation`: handle and
html availability, cross-boundary access, canvas lookup, and which encodings
`MediaRecorder.isTypeSupported` accepts. -/
structure RecorderEnv where
  iframePresent : Bool
  htmlPresent : Bool
  contentAccessible : Bool
  canvasFound : Bool
  isTypeSupported : String → Bool

/-- The part of `downloadAnimation` up to starting the recorder: the surfaced
error, whether `canvas.captureStream(30)` was invoked, the chosen encoding,
and whether `recorder.start()` ran. -/
structure DownloadStart where
  errorMsg : Option String
  captureStarted : Bool
  selectedMimeType : Option String
  recorderStarted : Bool

/-- The ordered output-encoding preference list of the recorder. -/
def mimeTypePrefs : List String :=
  ["video/webm;codecs=vp9", "video/webm;codecs=vp8", "video/webm"]

/-- The synchronous prefix of `downloadAnimation`: early-return without iframe
or html; throw on missing window/document or canvas; then capture the canvas
stream, and only afterwards scan the preference list, throwing the
no-supported-codec error when nothing matches, before any recorder exists. -/
def downloadAnimation (env : RecorderEnv) : DownloadStart :=
  if env.iframePresent && env.htmlPresent then
    if env.contentAccessible then
      if env.canvasFound then
        match mimeTypePrefs.find? env.isTypeSupported with
        | none => ⟨some "No supported video codec found", true, none, false⟩
        | some m => ⟨none, true, some m, true⟩
      else ⟨some "Canvas not found in animation", false, none, false⟩
    else ⟨some "Cannot access iframe content", false, none, false⟩
  else ⟨none, false, none, false⟩

/-- C7 counterexample: with no supported encoding the explicit error is
raised, but the canvas capture stream has already been started — the
rejection does not precede capture. -/
theorem downloadAnimation_no_codec_after_capture :
    (downloadAnimation ⟨true, true, true, true, fun _ => false⟩).errorMsg =
        some "No supported video codec found" ∧
      (downloadAnimation ⟨true, true, true, true, fun _ => false⟩).captureStarted = true :=
  ⟨rfl, rfl⟩

/-- C7 (amended): when no encoding in the ordered preference list is
supported, `downloadAnimation` rejects with the explicit
no-supported-codec error before any recorder is created or started, though
the canvas capture stream has already been started by then. -/
theorem downloadAnimation_no_codec_rejects_before_recording (env : RecorderEnv)
    (hif : env.iframePresent = true) (hh : env.htmlPresent = true)
    (hacc : env.contentAccessible = true) (hcv : env.canvasFound = true)
    (hsup : ∀ m ∈ mimeTypePrefs, env.isTypeSupported m = false) :
    downloadAnimation env = ⟨some "No supported video codec found", true, none, false⟩ := by
  unfold downloadAnimation
  rw [hif, hh, hacc, hcv]
  have hfind : mimeTypePrefs.find? env.isTypeSupported = none := by
    apply List.find?_eq_none.mpr
    intro m hm
    simp [hsup m hm]
  rw [hfind]
  rfl

/-- C7 witness: the all-unsupported environment. -/
theorem downloadAnimation_no_codec_witness :
    downloadAnimation ⟨true, true, true, true, fun _ => false⟩ =
      ⟨some "No supported video codec found", true, none, false⟩ :=
  downloadAnimation_no_codec_rejects_before_recording
    ⟨true, true, true, true, fun _ => false⟩ rfl rfl rfl rfl (fun _ _ => rfl)

/-- Observable outcome of a recorder completion handler: the exception that
escaped the handler (if any), whether the artifact download ran, whether the
capture tracks were stopped, and whether the downloading flag was cleared. -/
structure StopOutcome where
  thrown : Option String
  downloaded : Bool
  tracksStopped : Bool
  downloadingCleared : Bool

/-- The `onstop` handler of `downloadAnimation`, fed the sizes of the data
events (`ondataavailable` keeps only those of positive size): assembling a
zero-byte blob throws before the download, the track-stop loop, and the
flag reset are reached; a non-empty blob runs them all. -/
def recorderOnStop (dataEventSizes : List Nat) : StopOutcome :=
  let chunks := dataEventSizes.filter (fun n => decide (0 < n))
  let blobSize := chunks.foldl (fun a b => a + b) 0
  if blobSize = 0 then
    ⟨some "Recorded video is empty. Please ensure the animation is playing.", false, false, false⟩
  else ⟨none, true, true, true⟩

/-- The `onerror` handler of `downloadAnimation`: stops the tracks, clears
the flag, and alerts. -/
def recorderOnError : StopOutcome := ⟨none, false, true, true⟩

/-- C8: on the zero-byte completion path the handler throws before the
cleanup line, so the capture tracks are never stopped (and the downloading
flag stays set), while the successful and error paths do stop them — the
release is not unconditional, contradicting the claim. -/
theorem recorderOnStop_zero_bytes_skips_track_release :
    (recorderOnStop []).tracksStopped = false ∧
      (recorderOnStop []).thrown =
        some "Recorded video is empty. Please ensure the animation is playing." ∧
      (recorderOnStop []).downloadingCleared = false ∧
      (recorderOnStop [512]).tracksStopped = true ∧
      recorderOnError.tracksStopped = true :=
  ⟨rfl, rfl, rfl, rfl, rfl⟩

/-- Status values of a persisted `PromptLogRecord`. -/
inductive LogStatus where
  | VISUALIZATION_COMPLETE : LogStatus
  | FAILED : LogStatus
deriving DecidableEq

/-- The fields of `prisma.promptLog.create` issued by the
generate-visualization route (timestamps are managed by the store). -/
structure PromptLog where
  userId : String
  prompt : String
  instructions : Option Json
  narrativeGuide : Option Json
  visualizationHtml : Option String
  status : LogStatus
  errorMessage : Option String

/-- The parsed request body of `POST /api/generate-visualization`. -/
structure GenVizBody where
  instructions : Option String
  prompt : Option String
  narrativeGuide : Option Json

/-- Outcome of the one-shot `generateText` call: the returned text, or a
thrown error with its message. -/
inductive ModelOutcome where
  | ok (text : String) : ModelOutcome
  | threw (msg : String) : ModelOutcome

/-- Inputs that determine one `POST` evaluation: the session lookup, the
API-key configuration, the content-type header, the parsed body (`none`
models a `req.json()` throw), and the model call outcome. -/
structure PostEnv where
  sessionUser : Option String
  apiKeyConfigured : Bool
  contentType : String
  body : Option GenVizBody
  modelOutcome : ModelOutcome

/-- The HTTP response of the route: status code, `code` field, `error` field. -/
structure PostResponse where
  status : Nat
  code : String
  error : Option String

/-- `inputText` of the route: trimmed instructions when non-empty, else the
trimmed prompt when non-empty (`||` treats the empty string as falsy), else
nothing. -/
def inputTextOf (b : GenVizBody) : Option String :=
  let instr := b.instructions.map (fun s => (⟨jsTrimL s.data⟩ : String))
  let prm := b.prompt.map (fun s => (⟨jsTrimL s.data⟩ : String))
  match instr with
  | some s =>
    if s ≠ "" then some s
    else
      match prm with
      | some t => if t ≠ "" then some t else none
      | none => none
  | none =>
    match prm with
    | some t => if t ≠ "" then some t else none
    | none => none

/-- `parsedInstructions` of the route: parse the trimmed instructions when
present and non-empty, storing nothing when parsing fails. -/
def instrJsonOf (b : GenVizBody) : Option Json :=
  match b.instructions.map (fun s => (⟨jsTrimL s.data⟩ : String)) with
  | some s => if s ≠ "" then parseJson s else none
  | none => none

/-- The route's non-fatal structural warning text. -/
def structuralWarning : String :=
  "Generated output may not be a complete HTML document. Please validate before use."

/-- The route handler, up to the database-write outcome: its response and the
list of `promptLog.create` calls it issues. Guard order follows the source:
session, API key, content type, body parse, input presence, then the model
call; the catch block persists a `FAILED` record only when session, body and
input text are all available. -/
def genVizPOSTCore (env : PostEnv) : PostResponse × List PromptLog :=
  match env.sessionUser with
  | none => (⟨401, "", some "Unauthorized"⟩, [])
  | some uid =>
    if env.apiKeyConfigured then
      if containsSub "application/json".data env.contentType.data then
        match env.body with
        | none => (⟨500, "", some "Failed to generate visualization HTML."⟩, [])
        | some b =>
          match inputTextOf b with
          | none =>
            (⟨400, "", some "Missing or empty 'instructions' or 'prompt' in request body."⟩, [])
          | some inputText =>
            match env.modelOutcome with
            | ModelOutcome.threw msg =>
              (⟨500, "", some "Failed to generate visualization HTML."⟩,
                [{ userId := uid, prompt := inputText, instructions := instrJsonOf b,
                   narrativeGuide := b.narrativeGuide, visualizationHtml := none,
                   status := LogStatus.FAILED, errorMessage := some msg }])
            | ModelOutcome.ok text =>
              let code := stripMarkdownFences text
              if code = "" then
                (⟨502, "", some "Model returned an empty response."⟩, [])
              else if isLikelyCompleteHtml code then
                (⟨200, code, none⟩,
                  [{ userId := uid, prompt := inputText, instructions := instrJsonOf b,
                     narrativeGuide := b.narrativeGuide, visualizationHtml := some code,
                     status := LogStatus.VISUALIZATION_COMPLETE, errorMessage := none }])
              else
                (⟨200, code, some structuralWarning⟩,
                  [{ userId := uid, prompt := inputText, instructions := instrJsonOf b,
                     narrativeGuide := b.narrativeGuide, visualizationHtml := some code,
                     status := LogStatus.FAILED, errorMessage := some structuralWarning }])
      else (⟨400, "", some "Invalid content type. Expected application/json."⟩, [])
    else
      (⟨500, "",
        some "Gemini API key is not configured. Set GOOGLE_GENERATIVE_AI_API_KEY in your environment."⟩,
        [])

/-- Full route outcome: both create attempts and the records actually
persisted. Every `promptLog.create` is wrapped in its own try/catch whose
handler only logs, so a failing store drops the record without touching the
response. -/
structure PostOutcome where
  resp : PostResponse
  attemptedLogs : List PromptLog
  persistedLogs : List PromptLog

/-- The route handler with a given database-write outcome. -/
def genVizPOST (env : PostEnv) (dbCreateFails : Bool) : PostOutcome :=
  let c := genVizPOSTCore env
  ⟨c.1, c.2, if dbCreateFails then [] else c.2⟩

/-- C9 counterexample: with a session available, a request that completes with
a failure — the model returned an empty (post-strip) response, a 502 — is
answered without any `PromptLogRecord` being attempted or persisted. -/
theorem genVizPOST_empty_response_persists_nothing :
    (genVizPOST ⟨some "u", true, "application/json",
        some ⟨some "draw a sine wave", none, none⟩, ModelOutcome.ok ""⟩ false).resp.status = 502 ∧
      (genVizPOST ⟨some "u", true, "application/json",
        some ⟨some "draw a sine wave", none, none⟩, ModelOutcome.ok ""⟩ false).attemptedLogs = [] ∧
      (genVizPOST ⟨some "u", true, "application/json",
        some ⟨some "draw a sine wave", none, none⟩, ModelOutcome.ok ""⟩ false).persistedLogs = [] :=
  ⟨rfl, rfl, rfl⟩

/-- C9 (amended): with a session, a well-formed authenticated request, and a
generation call that either returns non-empty post-strip output or throws,
exactly one `PromptLogRecord` create is attempted, its status is
`VISUALIZATION_COMPLETE` or `FAILED`, and a failure of that persistence
leaves the HTTP response unchanged; the empty-model-response 502 path
persists nothing. -/
theorem genVizPOST_logs_after_generation (env : PostEnv) (uid : String) (b : GenVizBody)
    (t : String) (h1 : env.sessionUser = some uid) (h2 : env.apiKeyConfigured = true)
    (h3 : containsSub "application/json".data env.contentType.data = true)
    (h4 : env.body = some b) (h5 : inputTextOf b = some t) :
    (∀ msg, env.modelOutcome = ModelOutcome.threw msg →
      ∃ lg, (genVizPOST env false).attemptedLogs = [lg] ∧ lg.status = LogStatus.FAILED) ∧
    (∀ text, env.modelOutcome = ModelOutcome.ok text → stripMarkdownFences text ≠ "" →
      ∃ lg, (genVizPOST env false).attemptedLogs = [lg] ∧
        (lg.status = LogStatus.VISUALIZATION_COMPLETE ∨ lg.status = LogStatus.FAILED)) ∧
    (genVizPOST env true).resp = (genVizPOST env false).resp := by
  refine ⟨?_, ?_, rfl⟩
  · intro msg hm
    refine ⟨⟨uid, t, instrJsonOf b, b.narrativeGuide, none, LogStatus.FAILED, some msg⟩,
      ?_, rfl⟩
    show (genVizPOSTCore env).2 = _
    simp [genVizPOSTCore, h1, h2, h3, h4, h5, hm]
  · intro text hm hne
    by_cases hv : isLikelyCompleteHtml (stripMarkdownFences text) = true
    · refine ⟨⟨uid, t, instrJsonOf b, b.narrativeGuide, some (stripMarkdownFences text),
        LogStatus.VISUALIZATION_COMPLETE, none⟩, ?_, Or.inl rfl⟩
      show (genVizPOSTCore env).2 = _
      simp [genVizPOSTCore, h1, h2, h3, h4, h5, hm, hne, hv]
    · refine ⟨⟨uid, t, instrJsonOf b, b.narrativeGuide, some (stripMarkdownFences text),
        LogStatus.FAILED, some structuralWarning⟩, ?_, Or.inr rfl⟩
      show (genVizPOSTCore env).2 = _
      simp [genVizPOSTCore, h1, h2, h3, h4, h5, hm, hne, hv]

/-- C9 witness: a structurally incomplete but non-empty model response is
logged as FAILED and the response ignores the database outcome. -/
theorem genVizPOST_logs_after_generation_witness :
    (∃ lg, (genVizPOST ⟨some "u", true, "application/json",
        some ⟨some "draw", none, none⟩, ModelOutcome.ok "hello"⟩ false).attemptedLogs = [lg] ∧
      (lg.status = LogStatus.VISUALIZATION_COMPLETE ∨ lg.status = LogStatus.FAILED)) ∧
    (genVizPOST ⟨some "u", true, "application/json",
        some ⟨some "draw", none, none⟩, ModelOutcome.ok "hello"⟩ true).resp =
      (genVizPOST ⟨some "u", true, "application/json",
        some ⟨some "draw", none, none⟩, ModelOutcome.ok "hello"⟩ false).resp :=
  ⟨((genVizPOST_logs_after_generation ⟨some "u", true, "application/json",
      some ⟨some "draw", none, none⟩, ModelOutcome.ok "hello"⟩ "u"
      ⟨some "draw", none, none⟩ "draw" rfl rfl (by decide) rfl (by decide)).2.1)
      "hello" rfl (by decide),
    (genVizPOST_logs_after_generation ⟨some "u", true, "application/json",
      some ⟨some "draw", none, none⟩, ModelOutcome.ok "hello"⟩ "u"
      ⟨some "draw", none, none⟩ "draw" rfl rfl (by decide) rfl (by decide)).2.2⟩

/-- A stored prompt-log row as selected by the history endpoint (only the
fields the claim touches, plus the ordering key). -/
structure PromptLogRow where
  userId : String
  createdAt : Nat
  prompt : String

/-- Insert a row into a list sorted by `createdAt` descending. -/
def insertByCreatedDesc (r : PromptLogRow) : List PromptLogRow → List PromptLogRow
  | [] => [r]
  | a :: t =>
    if a.createdAt < r.createdAt then r :: a :: t
    else a :: insertByCreatedDesc r t

/-- `orderBy: createdAt desc` of the store. -/
def sortByCreatedDesc (l : List PromptLogRow) : List PromptLogRow :=
  l.foldr insertByCreatedDesc []

/-- `prisma.promptLog.findMany` as issued by the history route: filter to the
session user, order by creation time descending, skip `offset`, take
`limit`. -/
def promptLogFindMany (db : List PromptLogRow) (uid : String) (limit offset : Nat) :
    List PromptLogRow :=
  (((sortByCreatedDesc (db.filter (fun r => r.userId = uid))).drop offset).take limit)

/-- Response of `GET` prompt-history: 401 without a session, otherwise the
page of logs and a `total` field. -/
inductive HistoryResponse where
  | unauthorized : HistoryResponse
  | ok (logs : List PromptLogRow) (total : Nat) : HistoryResponse

/-- The history route: reject without a session; otherwise return the page
and set `total` to `promptLogs.length` — the length of the page just
fetched. -/
def historyGET (session : Option String) (db : List PromptLogRow) (limit offset : Nat) :
    HistoryResponse :=
  match session with
  | none => HistoryResponse.unauthorized
  | some uid =>
    let logs := promptLogFindMany db uid limit offset
    HistoryResponse.ok logs logs.length

/-- A two-row store for a single user, used to separate the page length from
the user's total record count. -/
def demoHistoryDb : List PromptLogRow :=
  [⟨"u", 2, "second"⟩, ⟨"u", 1, "first"⟩]

/-- C10: the `total` field of the history response is the number of records
in the returned page (hence never more than `limit`), not the user's total
stored count — on a two-record store with `limit` 1 it answers 1 while the
user owns 2 records. -/
theorem historyGET_total_is_page_length :
    (∀ (uid : String) (db : List PromptLogRow) (limit offset : Nat),
      ∃ logs, historyGET (some uid) db limit offset = HistoryResponse.ok logs logs.length ∧
        logs.length ≤ limit) ∧
    (∃ logs, historyGET (some "u") demoHistoryDb 1 0 = HistoryResponse.ok logs 1 ∧
      (demoHistoryDb.filter (fun r => r.userId = "u")).length = 2) := by
  constructor
  · intro uid db limit offset
    refine ⟨promptLogFindMany db uid limit offset, rfl, ?_⟩
    have h := List.length_take_le limit
      ((sortByCreatedDesc (db.filter (fun r => r.userId = uid))).drop offset)
    unfold promptLogFindMany
    exact h
  · exact ⟨[⟨"u", 2, "second"⟩], rfl, rfl⟩
